import Mathlib

/-!
Verification of the asynchronous image-generation workflow of the
`form_static` repository (Express.js backends proxying Stable Horde).

The definitions below are a shallow embedding of:
  * the `POST /generate-image` handler of `src/server.js` (identical in
    `src/unnamed/part_005`): the model-group fallback submission loop and
    the bounded status-polling loop;
  * `StableHorde.getImageResult` and the `GET /image-status/:jobId`
    endpoint of `src/unnamed/part_008`;
  * the `GET /image-status/:imageId` endpoint of `src/unnamed/part_003`.

JavaScript string truthiness (`""` and `undefined`/`null` are falsy) is
modelled explicitly, since the handler tests `!imageUrl`, `if (jobId)`,
`a || b` on such values.
-/

namespace FormStatic

/-- Truthiness of a JS value that is either a string or null/undefined:
`null`, `undefined` and `""` are falsy. -/
def strTruthy : Option String → Bool
  | none => false
  | some s => !(s == "")

/-- JS `a || b` where both operands are strings-or-absent. -/
def jsOr (a b : Option String) : Option String :=
  if strTruthy a then a else b

/-- JS `a || d` where the fallback `d` is a string literal. -/
def jsOrD (a : Option String) (d : String) : String :=
  match a with
  | none => d
  | some s => if s == "" then d else s

/-- One element of the provider's `generations` array:
`{img, model, seed}`. -/
structure Generation where
  img : String
  model : Option String
  seed : Option Nat
deriving DecidableEq

/-- Body of a `GET /generate/status/{id}` response:
`{done, faulted, generations, fault_message, wait_time, queue_position}`.
`generations := none` models an absent field, `some []` an empty array. -/
structure StatusResponse where
  done : Bool
  faulted : Bool
  generations : Option (List Generation)
  fault_message : Option String
  wait_time : Option Nat
  queue_position : Option Nat
deriving DecidableEq

/-- Body of a successful `POST /generate/async` response as read by
`server.js`: `{id, model, warnings, message}`; `warnings` is modelled by
its list of warning codes. -/
structure InitiateResponse where
  id : Option String
  model : Option String
  warnings : Option (List String)
  message : Option String
deriving DecidableEq

/-- Upstream outcome of one submission attempt for one model group:
either a 2xx response body, or a thrown request error carrying the
optional HTTP status and optional upstream message. -/
inductive SubmitOutcome where
  | success (resp : InitiateResponse)
  | failure (status : Option Nat) (message : Option String)
deriving DecidableEq

/-- The `server.js` test
`initiateResponse.data.warnings && initiateResponse.data.warnings.some(w => w.code === 'NoAvailableWorker')`:
an absent `warnings` field is falsy, an empty array yields `false`. -/
def hasNoWorkerWarning (r : InitiateResponse) : Bool :=
  match r.warnings with
  | none => false
  | some ws => ws.contains "NoAvailableWorker"

/-- Result of the submission phase of `POST /generate-image`. -/
inductive SubmitResult where
  | badRequest (error : String)
  | initiated (jobId : String) (modelUsed : Option String)
  | unavailable (error : String)
deriving DecidableEq

/-- Default 503 message of `server.js`. -/
def noWorkersMessage : String :=
  "Failed to initiate image generation. No suitable workers found for the selected models. Please try again later."

/-- Default message attached to a NoAvailableWorker warning. -/
def noWorkerWarningMessage : String :=
  "No available workers for these models/size."

/-- The `for (const modelsToTry of modelGroups)` fallback loop of
`server.js` lines 776–828, with the mutable `jobId`, `finalModelUsed`
and `generationWarning` passed as accumulators (initially `null`,
`"N/A"`, `null`).  Each group is paired with the upstream outcome of
its submission call.  On a NoAvailableWorker warning the group's job id
is discarded and the loop continues; a truthy job id breaks the loop;
a thrown error with HTTP status 400 returns immediately; any other
error falls through to the next group.  After the loop, a falsy job id
yields the 503 branch. -/
def submitLoop :
    List (List String × SubmitOutcome) → Option String → Option String →
    Option String → SubmitResult
  | [], jobId, modelUsed, warning =>
      if strTruthy jobId then
        .initiated (jobId.getD "") modelUsed
      else
        .unavailable (jsOrD warning noWorkersMessage)
  | (group, outcome) :: rest, jobId, modelUsed, warning =>
      match outcome with
      | .success r =>
          let jobId1 := r.id
          let modelUsed1 := jsOr r.model group.head?
          if hasNoWorkerWarning r then
            submitLoop rest none modelUsed1
              (some (jsOrD r.message noWorkerWarningMessage))
          else if strTruthy jobId1 then
            .initiated (jobId1.getD "") modelUsed1
          else
            submitLoop rest jobId1 modelUsed1 none
      | .failure status message =>
          if status == some 400 then
            .badRequest ("Stable Horde Bad Request: " ++
              jsOrD message "Check prompt or parameters.")
          else
            submitLoop rest jobId modelUsed warning

/-- `const maxAttempts = 45` in `server.js`. -/
def maxAttempts : Nat := 45

/-- Terminal outcome of the polling loop, together with the value of the
`attempts` counter (the number of status queries issued) when the loop
returned. -/
inductive PollResult where
  | done (imageUrl : String) (modelUsed : Option String) (attempts : Nat)
  | faulted (fault_message : Option String) (attempts : Nat)
  | timedOut (attempts : Nat)
deriving DecidableEq

/-- The `if (imageUrl) { ... res.json ... } else { ... 504 ... }` check
after the polling loop: a `null` or `""` imageUrl is falsy. -/
def pollFinish (imageUrl modelUsed : Option String) (attempts : Nat) :
    PollResult :=
  match imageUrl with
  | none => .timedOut attempts
  | some url => if url == "" then .timedOut attempts
                else .done url modelUsed attempts

/-- The `while (!imageUrl && attempts < maxAttempts)` loop of
`server.js` lines 835–861.  `polls n` is the body of the status
response received by the query issued when `attempts` equals `n`
(the counter is incremented before each query, so the first query is
`polls 1`).  The fuel argument equals `maxAttempts - attempts`.
A response with a non-empty `generations` array assigns
`imageUrl = generations[0].img` and
`finalModelUsed = generations[0].model || finalModelUsed`; otherwise a
set `faulted` flag returns the 500 branch immediately; otherwise the
loop continues. -/
def pollLoop (polls : Nat → StatusResponse) :
    Nat → Option String → Option String → Nat → PollResult
  | 0, imageUrl, modelUsed, attempts => pollFinish imageUrl modelUsed attempts
  | fuel + 1, imageUrl, modelUsed, attempts =>
      if strTruthy imageUrl then pollFinish imageUrl modelUsed attempts
      else
        let a := attempts + 1
        let s := polls a
        match s.generations with
        | some (g :: _) => pollLoop polls fuel (some g.img) (jsOr g.model modelUsed) a
        | _ =>
            if s.faulted then .faulted s.fault_message a
            else pollLoop polls fuel imageUrl modelUsed a

/-- HTTP response of the `POST /generate-image` handler, with the JSON
bodies actually produced by `server.js`. -/
inductive GenImageResult where
  | badRequest (error : String)
  | serviceUnavailable (error : String)
  | ok (imageUrl : String) (model : Option String)
  | hordeFault (error : String)
  | timeout (error : String)
deriving DecidableEq

/-- HTTP status code set on each response shape. -/
def GenImageResult.httpStatus : GenImageResult → Nat
  | .badRequest _ => 400
  | .serviceUnavailable _ => 503
  | .ok _ _ => 200
  | .hordeFault _ => 500
  | .timeout _ => 504

/-- The 500 body built by the faulted branch:
a JS template literal, so an absent `fault_message` prints as
`undefined`. -/
def faultedHttpError (msg : Option String) : String :=
  "Image generation failed on Stable Horde: " ++ msg.getD "undefined"

/-- The 504 body of the timeout branch. -/
def timeoutHttpError : String :=
  "Image generation timed out on Stable Horde. This can happen with very complex prompts, larger resolutions, or unusually low worker availability. Please try again or simplify your request."

/-- Mapping from the polling loop's terminal outcome to the HTTP
response sent by the handler. -/
def pollResultToHttp : PollResult → GenImageResult
  | .done url m _ => .ok url m
  | .faulted msg _ => .hordeFault (faultedHttpError msg)
  | .timedOut _ => .timeout timeoutHttpError

/-- The whole `POST /generate-image` handler after request validation:
submission phase, then (only when a job id was obtained) the polling
phase.  `groups` pairs each configured model group with the upstream
outcome of its submission call; `polls` gives the status responses. -/
def generateImage (groups : List (List String × SubmitOutcome))
    (polls : Nat → StatusResponse) : GenImageResult :=
  match submitLoop groups none (some "N/A") none with
  | .badRequest e => .badRequest e
  | .unavailable e => .serviceUnavailable e
  | .initiated _ modelUsed =>
      pollResultToHttp (pollLoop polls maxAttempts none modelUsed 0)

/-- A status response that keeps the loop in the Polling state: the
`generations` array is absent or empty, and the fault flag is clear. -/
def isPending (s : StatusResponse) : Bool :=
  (s.generations.getD []).isEmpty && !s.faulted

/-- A submission outcome that leaves the fallback loop without a job id:
a success with a NoAvailableWorker warning, a success whose `id` is
falsy, or a thrown error whose status is not 400. -/
def nonInitiating : SubmitOutcome → Bool
  | .success r => hasNoWorkerWarning r || !(strTruthy r.id)
  | .failure status _ => !(status == some 400)

/-- `generations?.[0]` of a status response. -/
def firstGen (s : StatusResponse) : Option Generation :=
  match s.generations with
  | some (g :: _) => some g
  | _ => none

/-- Response shape of `part_008`'s `StableHorde.getImageResult` and of
the `GET /image-status/:jobId` endpoint built on it. -/
structure ImageResult where
  status : String
  imageUrl : Option String
  seed : Option Nat
  details : Option Generation
  waitTime : Option Nat
  queuePosition : Option Nat
deriving DecidableEq

/-- `StableHorde.getImageResult` of `src/unnamed/part_008` lines
154–171: when `done` it reports `completed` with
`generations?.[0]?.img` (possibly absent); otherwise `failed` when
`faulted` else `processing`, with the wait metadata. -/
def getImageResult (s : StatusResponse) : ImageResult :=
  if s.done then
    { status := "completed"
      imageUrl := (firstGen s).map Generation.img
      seed := (firstGen s).bind Generation.seed
      details := firstGen s
      waitTime := none
      queuePosition := none }
  else
    { status := if s.faulted then "failed" else "processing"
      imageUrl := none
      seed := none
      details := none
      waitTime := s.wait_time
      queuePosition := s.queue_position }

/-- The JSON body returned by `GET /image-status/:jobId` of
`src/unnamed/part_008` lines 394–435, as a function of the upstream
status response fetched during that call (the SQLite update performed
on the completed branch does not feed back into the response). -/
def imageStatusEndpoint (s : StatusResponse) : ImageResult :=
  let r := getImageResult s
  if r.status == "completed" then
    { status := "completed", imageUrl := r.imageUrl, seed := r.seed,
      details := r.details, waitTime := none, queuePosition := none }
  else
    { status := r.status, imageUrl := none, seed := none, details := none,
      waitTime := r.waitTime, queuePosition := r.queuePosition }

/-- Response shape of `part_003`'s `GET /image-status/:imageId`. -/
structure SimpleStatus where
  status : String
  imageUrl : Option String
deriving DecidableEq

/-- `GET /image-status/:imageId` of `src/unnamed/part_003` lines
149–164, as a function of the upstream status response.  That handler
reads `status.generations[0].img` without a guard, so `none` models the
TypeError thrown when `done` is set but no generation is present. -/
def imageStatusSimple (s : StatusResponse) : Option SimpleStatus :=
  if s.done then
    match s.generations with
    | some (g :: _) => some { status := "completed", imageUrl := some g.img }
    | _ => none
  else
    some { status := if s.faulted then "failed" else "processing",
           imageUrl := none }

/-! ### Helper lemmas about the polling loop -/

/-- If every status query up to the remaining budget reports a pending
state, the loop consumes all its fuel and times out with the attempt
counter advanced by exactly the fuel. -/
theorem pollLoop_pending (polls : Nat → StatusResponse) :
    ∀ fuel attempts modelUsed,
    (∀ n, attempts < n → n ≤ attempts + fuel → isPending (polls n) = true) →
    pollLoop polls fuel none modelUsed attempts = .timedOut (attempts + fuel) := by
  intro fuel
  induction fuel with
  | zero => intro attempts modelUsed _; simp [pollLoop, pollFinish]
  | succ fuel ih =>
      intro attempts modelUsed h
      have hp := h (attempts + 1) (by omega) (by omega)
      simp only [isPending, Bool.and_eq_true, Bool.not_eq_true',
        List.isEmpty_iff] at hp
      obtain ⟨hg, hf⟩ := hp
      simp only [pollLoop, strTruthy]
      cases hgen : (polls (attempts + 1)).generations with
      | none =>
          simp only [hgen, hf, if_false, Bool.false_eq_true]
          have := ih (attempts + 1) modelUsed
            (fun n h1 h2 => h n (by omega) (by omega))
          rw [this]
          congr 1
          omega
      | some l =>
          cases l with
          | nil =>
              simp only [hgen, hf, Bool.false_eq_true, if_false]
              have := ih (attempts + 1) modelUsed
                (fun n h1 h2 => h n (by omega) (by omega))
              rw [this]
              congr 1
              omega
          | cons g t => rw [hgen] at hg; simp at hg

/-- Once `imageUrl` holds a non-empty string, the loop exits at once in
the Done state, whatever fuel remains. -/
theorem pollLoop_truthy (polls : Nat → StatusResponse) (fuel : Nat)
    (url : String) (h : url ≠ "") (modelUsed : Option String)
    (attempts : Nat) :
    pollLoop polls fuel (some url) modelUsed attempts
      = .done url modelUsed attempts := by
  cases fuel <;> simp [pollLoop, pollFinish, strTruthy, h]

/-- If the status queries before attempt `j` are all pending and the
query at attempt `j` (within the fuel budget) carries a non-empty
`generations` array whose first element has a non-empty `img`, the loop
ends Done at attempt `j` with that element's payload. -/
theorem pollLoop_first_done (polls : Nat → StatusResponse) (j : Nat)
    (g : Generation) (gs : List Generation) :
    ∀ fuel attempts modelUsed, attempts < j → j ≤ attempts + fuel →
    (∀ k, k < j → attempts < k → isPending (polls k) = true) →
    (polls j).generations = some (g :: gs) → g.img ≠ "" →
    pollLoop polls fuel none modelUsed attempts
      = .done g.img (jsOr g.model modelUsed) j := by
  intro fuel
  induction fuel with
  | zero => intro attempts modelUsed h1 h2 _ _ _; omega
  | succ fuel ih =>
      intro attempts modelUsed h1 h2 hpend hgen himg
      simp only [pollLoop, strTruthy]
      by_cases hj : attempts + 1 = j
      · subst hj
        rw [hgen]
        simp only []
        exact pollLoop_truthy polls fuel g.img himg
          (jsOr g.model modelUsed) (attempts + 1)
      · have hp := hpend (attempts + 1) (by omega) (by omega)
        simp only [isPending, Bool.and_eq_true, Bool.not_eq_true',
          List.isEmpty_iff] at hp
        obtain ⟨hg, hf⟩ := hp
        cases hgen2 : (polls (attempts + 1)).generations with
        | none =>
            simp only [hgen2, hf, Bool.false_eq_true, if_false]
            exact ih (attempts + 1) modelUsed (by omega) (by omega)
              (fun k hk1 hk2 => hpend k hk1 (by omega)) hgen himg
        | some l =>
            cases l with
            | nil =>
                simp only [hgen2, hf, Bool.false_eq_true, if_false]
                exact ih (attempts + 1) modelUsed (by omega) (by omega)
                  (fun k hk1 hk2 => hpend k hk1 (by omega)) hgen himg
            | cons a t => rw [hgen2] at hg; simp at hg

/-- If the status queries before attempt `j` are all pending and the
query at attempt `j` (within the fuel budget) has no generation but a
set fault flag, the loop returns the Faulted state at attempt `j`,
carrying the provider's `fault_message`, with no further query. -/
theorem pollLoop_first_faulted (polls : Nat → StatusResponse) (j : Nat) :
    ∀ fuel attempts modelUsed, attempts < j → j ≤ attempts + fuel →
    (∀ k, k < j → attempts < k → isPending (polls k) = true) →
    (polls j).generations.getD [] = [] → (polls j).faulted = true →
    pollLoop polls fuel none modelUsed attempts
      = .faulted (polls j).fault_message j := by
  intro fuel
  induction fuel with
  | zero => intro attempts modelUsed h1 h2 _ _ _; omega
  | succ fuel ih =>
      intro attempts modelUsed h1 h2 hpend hgen hfault
      simp only [pollLoop, strTruthy]
      by_cases hj : attempts + 1 = j
      · subst hj
        cases hgen2 : (polls (attempts + 1)).generations with
        | none => simp [hgen2, hfault]
        | some l =>
            cases l with
            | nil => simp [hgen2, hfault]
            | cons a t => rw [hgen2] at hgen; simp at hgen
      · have hp := hpend (attempts + 1) (by omega) (by omega)
        simp only [isPending, Bool.and_eq_true, Bool.not_eq_true',
          List.isEmpty_iff] at hp
        obtain ⟨hg, hf⟩ := hp
        cases hgen2 : (polls (attempts + 1)).generations with
        | none =>
            simp only [hgen2, hf, Bool.false_eq_true, if_false]
            exact ih (attempts + 1) modelUsed (by omega) (by omega)
              (fun k hk1 hk2 => hpend k hk1 (by omega)) hgen hfault
        | some l =>
            cases l with
            | nil =>
                simp only [hgen2, hf, Bool.false_eq_true, if_false]
                exact ih (attempts + 1) modelUsed (by omega) (by omega)
                  (fun k hk1 hk2 => hpend k hk1 (by omega)) hgen hfault
            | cons a t => rw [hgen2] at hg; simp at hg

/-- Attempt counter recorded in a terminal outcome. -/
def PollResult.attempts : PollResult → Nat
  | .done _ _ a => a
  | .faulted _ a => a
  | .timedOut a => a

/-- The after-loop check keeps the attempt counter unchanged. -/
theorem pollFinish_attempts (imageUrl modelUsed : Option String) (a : Nat) :
    (pollFinish imageUrl modelUsed a).attempts = a := by
  unfold pollFinish
  cases imageUrl with
  | none => rfl
  | some s => by_cases h : s = "" <;> simp [h, PollResult.attempts]

/-- The loop issues at most `fuel` further status queries. -/
theorem pollLoop_attempts_le (polls : Nat → StatusResponse) :
    ∀ fuel imageUrl modelUsed a,
    (pollLoop polls fuel imageUrl modelUsed a).attempts ≤ a + fuel := by
  intro fuel
  induction fuel with
  | zero =>
      intro imageUrl modelUsed a
      simp [pollLoop, pollFinish_attempts]
  | succ fuel ih =>
      intro imageUrl modelUsed a
      simp only [pollLoop]
      split
      · rw [pollFinish_attempts]; omega
      · cases hgen : (polls (a + 1)).generations with
        | none =>
            simp only [hgen]
            split
            · simp only [PollResult.attempts]; omega
            · have := ih imageUrl modelUsed (a + 1); omega
        | some l =>
            cases l with
            | nil =>
                simp only [hgen]
                split
                · simp only [PollResult.attempts]; omega
                · have := ih imageUrl modelUsed (a + 1); omega
            | cons g t =>
                simp only [hgen]
                have := ih (some g.img) (jsOr g.model modelUsed) (a + 1)
                omega

/-- The loop only returns Done with a non-empty image URL: a falsy
(empty) `img` keeps `imageUrl` falsy, so the Done branch after the loop
is never taken with it. -/
theorem pollLoop_done_nonempty (polls : Nat → StatusResponse) :
    ∀ fuel imageUrl modelUsed a url m k,
    pollLoop polls fuel imageUrl modelUsed a = .done url m k → url ≠ "" := by
  intro fuel
  induction fuel with
  | zero =>
      intro imageUrl modelUsed a url m k h
      cases imageUrl with
      | none => simp [pollLoop, pollFinish] at h
      | some s =>
          simp only [pollLoop, pollFinish] at h
          split at h
          · exact absurd h (by simp)
          · rename_i hne
            obtain ⟨h1, h2, h3⟩ := PollResult.done.inj h
            subst h1; simpa using hne
  | succ fuel ih =>
      intro imageUrl modelUsed a url m k h
      simp only [pollLoop] at h
      split at h
      · rename_i htru
        cases imageUrl with
        | none => simp [strTruthy] at htru
        | some s =>
            simp only [pollFinish] at h
            split at h
            · exact absurd h (by simp)
            · rename_i hne
              obtain ⟨h1, h2, h3⟩ := PollResult.done.inj h
              subst h1; simpa using hne
      · cases hgen : (polls (a + 1)).generations with
        | none =>
            rw [hgen] at h
            simp only [] at h
            split at h
            · exact absurd h (by simp)
            · exact ih imageUrl modelUsed (a + 1) url m k h
        | some l =>
            cases l with
            | nil =>
                rw [hgen] at h
                simp only [] at h
                split at h
                · exact absurd h (by simp)
                · exact ih imageUrl modelUsed (a + 1) url m k h
            | cons g t =>
                rw [hgen] at h
                exact ih (some g.img) (jsOr g.model modelUsed) (a + 1) url m k h

/-- If every configured group's submission outcome is non-initiating,
the fallback loop ends in the 503 branch (given that the accumulated
job id is still falsy, as it is at the start). -/
theorem submitLoop_exhausted :
    ∀ groups : List (List String × SubmitOutcome),
    (∀ p ∈ groups, nonInitiating p.2 = true) →
    ∀ jobId modelUsed warning, strTruthy jobId = false →
    ∃ e, submitLoop groups jobId modelUsed warning = .unavailable e := by
  intro groups
  induction groups with
  | nil =>
      intro _ jobId modelUsed warning hfalsy
      refine ⟨jsOrD warning noWorkersMessage, ?_⟩
      simp [submitLoop, hfalsy]
  | cons p rest ih =>
      intro h jobId modelUsed warning hfalsy
      obtain ⟨group, outcome⟩ := p
      have hni := h ⟨group, outcome⟩ (List.mem_cons_self _ _)
      cases outcome with
      | success r =>
          simp only [nonInitiating, Bool.or_eq_true, Bool.not_eq_true'] at hni
          simp only [submitLoop]
          by_cases hw : hasNoWorkerWarning r = true
          · simp only [hw, if_true]
            exact ih (fun q hq => h q (List.mem_cons_of_mem _ hq))
              none _ _ rfl
          · have hid : strTruthy r.id = false := by
              rcases hni with hni | hni
              · exact absurd hni hw
              · exact hni
            simp only [hw, Bool.false_eq_true, if_false, hid]
            exact ih (fun q hq => h q (List.mem_cons_of_mem _ hq))
              r.id _ _ hid
      | failure status message =>
          simp only [nonInitiating, Bool.not_eq_true'] at hni
          simp only [submitLoop, hni, Bool.false_eq_true, if_false]
          exact ih (fun q hq => h q (List.mem_cons_of_mem _ hq))
            jobId _ _ hfalsy

/-! ### Concrete fixtures used by witnesses and counterexamples -/

/-- A Bool view of the 503 response shape. -/
def GenImageResult.isServiceUnavailable : GenImageResult → Bool
  | .serviceUnavailable _ => true
  | _ => false

/-- A still-waiting status response. -/
def pendingStatus : StatusResponse :=
  { done := false, faulted := false, generations := none,
    fault_message := none, wait_time := some 10, queue_position := some 3 }

/-- The spec scenario's terminal response:
`{done:true, generations:[{img:"https://x/1.png", model:"stable_diffusion"}]}`. -/
def scenarioDoneStatus : StatusResponse :=
  { done := true, faulted := false,
    generations := some [{ img := "https://x/1.png",
                           model := some "stable_diffusion", seed := none }],
    fault_message := none, wait_time := none, queue_position := none }

/-- The spec scenario's poll stream: two pending responses, then done. -/
def scenarioPolls : Nat → StatusResponse := fun n =>
  if n ≤ 2 then pendingStatus else scenarioDoneStatus

/-- A first-poll fault: `{faulted:true, fault_message:"NSFW filter triggered"}`. -/
def nsfwFaultStatus : StatusResponse :=
  { done := false, faulted := true, generations := none,
    fault_message := some "NSFW filter triggered",
    wait_time := none, queue_position := none }

/-- Every poll reports the NSFW fault. -/
def nsfwPolls : Nat → StatusResponse := fun _ => nsfwFaultStatus

/-- A clean submission success carrying job id `job-1`. -/
def okSubmit : InitiateResponse :=
  { id := some "job-1", model := none, warnings := none, message := none }

/-- The spec scenario's model group, submitted successfully. -/
def sdGroup : List String × SubmitOutcome :=
  (["stable_diffusion"], .success okSubmit)

/-- A submission answered with a NoAvailableWorker warning. -/
def noWorkerSubmit : InitiateResponse :=
  { id := some "job-A", model := none,
    warnings := some ["NoAvailableWorker"], message := none }

/-- A clean submission success carrying job id `job-B`. -/
def okSubmitB : InitiateResponse :=
  { id := some "job-B", model := none, warnings := some [], message := none }

/-- A status response with a non-empty generations array whose only
entry has an empty `img`. -/
def emptyImgStatus : StatusResponse :=
  { done := true, faulted := false,
    generations := some [{ img := "", model := some "stable_diffusion",
                           seed := none }],
    fault_message := none, wait_time := none, queue_position := none }

/-- Poll 1 returns the empty-img response, later polls are pending. -/
def emptyImgPolls : Nat → StatusResponse := fun n =>
  if n = 1 then emptyImgStatus else pendingStatus

/-- A status response that sets `faulted` but also carries a non-empty
generations array with a truthy `img`. -/
def faultWithImageStatus : StatusResponse :=
  { done := true, faulted := true,
    generations := some [{ img := "https://x/ok.png", model := none,
                           seed := none }],
    fault_message := some "NSFW filter triggered",
    wait_time := none, queue_position := none }

/-- Every poll reports the fault-with-image response. -/
def faultWithImagePolls : Nat → StatusResponse := fun _ => faultWithImageStatus

/-- A status response with `faulted` set, a non-empty generations array
and an empty first `img`. -/
def emptyImgFaultStatus : StatusResponse :=
  { done := false, faulted := true,
    generations := some [{ img := "", model := none, seed := none }],
    fault_message := some "worker crashed",
    wait_time := none, queue_position := none }

/-- Poll 1 returns the empty-img faulted response, later polls pending. -/
def emptyImgFaultPolls : Nat → StatusResponse := fun n =>
  if n = 1 then emptyImgFaultStatus else pendingStatus

/-- An upstream status marked done with an empty generations array. -/
def doneEmptyStatus : StatusResponse :=
  { done := true, faulted := false, generations := some [],
    fault_message := none, wait_time := none, queue_position := none }

/-- An upstream fault status with no generation and a fault message. -/
def faultedNoGenStatus : StatusResponse :=
  { done := false, faulted := true, generations := none,
    fault_message := some "boom", wait_time := none, queue_position := none }

/-- A done status with both `done` and `faulted` set. -/
def doneFaultedStatus : StatusResponse :=
  { done := true, faulted := true, generations := some [],
    fault_message := some "late fault", wait_time := none,
    queue_position := none }

/-- A done status observed by a first status check. -/
def doneStatusA : StatusResponse :=
  { done := true, faulted := false,
    generations := some [{ img := "https://x/1.png",
                           model := some "stable_diffusion", seed := some 42 }],
    fault_message := none, wait_time := some 0, queue_position := some 0 }

/-- The same done status observed by a second status check, with
different transient wait metadata. -/
def doneStatusB : StatusResponse :=
  { done := true, faulted := false,
    generations := some [{ img := "https://x/1.png",
                           model := some "stable_diffusion", seed := some 42 }],
    fault_message := none, wait_time := none, queue_position := none }

/-- A group list in which every submission outcome is non-initiating. -/
def exhaustedGroups : List (List String × SubmitOutcome) :=
  [(["Realistic Vision"], .success noWorkerSubmit),
   (["Deliberate"], .failure (some 429) (some "10 per 1 minute"))]

/-! ### Claim theorems -/

/-- C1: for every job that was successfully submitted, if no status
response ever contains a non-empty generations array or a set fault
flag, the polling loop of `POST /generate-image` performs exactly
`maxAttempts` (45) status queries and then the handler answers
HTTP 504 with the timeout body — the give-up attempt count is
deterministic and equal to the configured budget. -/
theorem c1_timeout_after_exact_budget
    (groups : List (List String × SubmitOutcome))
    (polls : Nat → StatusResponse) (jid : String) (mu : Option String)
    (hsub : submitLoop groups none (some "N/A") none = .initiated jid mu)
    (hp : ∀ n, isPending (polls n) = true) :
    pollLoop polls maxAttempts none mu 0 = .timedOut maxAttempts ∧
    generateImage groups polls = .timeout timeoutHttpError ∧
    (generateImage groups polls).httpStatus = 504 := by
  have hl := pollLoop_pending polls maxAttempts 0 mu (fun n _ _ => hp n)
  rw [Nat.zero_add] at hl
  refine ⟨hl, ?_, ?_⟩ <;>
    simp [generateImage, hsub, hl, pollResultToHttp, GenImageResult.httpStatus]

/-- Witness for C1: a submitted job whose every poll is pending times
out at exactly 45 attempts with HTTP 504. -/
theorem c1_timeout_after_exact_budget_witness :
    pollLoop (fun _ => pendingStatus) maxAttempts none
        (some "stable_diffusion") 0 = .timedOut maxAttempts ∧
    generateImage [sdGroup] (fun _ => pendingStatus)
      = .timeout timeoutHttpError ∧
    (generateImage [sdGroup] (fun _ => pendingStatus)).httpStatus = 504 :=
  c1_timeout_after_exact_budget [sdGroup] (fun _ => pendingStatus)
    "job-1" (some "stable_diffusion") (by decide) (fun _ => rfl)

/-- C2 counterexample: poll 1 carries the non-empty generations array
`[{img := "", model := "stable_diffusion"}]`, yet the loop does not end
in the Done state there: the empty `img` is falsy in JS, so the loop
keeps polling until the budget is exhausted and the handler answers
HTTP 504 — not HTTP 200 with that element's payload, as the claim
requires for every non-empty generations array. -/
theorem c2_empty_img_not_done_counterexample :
    (emptyImgPolls 1).generations =
      some [{ img := "", model := some "stable_diffusion", seed := none }] ∧
    pollLoop emptyImgPolls maxAttempts none (some "N/A") 0
      = .timedOut maxAttempts ∧
    (generateImage [sdGroup] emptyImgPolls).httpStatus = 504 :=
  ⟨rfl, by decide, by decide⟩

/-- C2 (amended): the first status response whose generations array is
non-empty ends the polling loop in the Done state — provided its first
element's `img` is non-empty, all earlier responses were pending, and
it arrives within the attempt budget — and the handler answers
HTTP 200 with `imageUrl = generations[0].img` and
`model = generations[0].model` (falling back to the submission's model
when absent).  In particular the spec scenario (two pending polls, then
`{done:true, generations:[{img:"https://x/1.png", model:"stable_diffusion"}]}`)
yields `{imageUrl:"https://x/1.png", model:"stable_diffusion"}`. -/
theorem c2_first_nonempty_generation_done
    (groups : List (List String × SubmitOutcome))
    (polls : Nat → StatusResponse) (jid : String) (mu : Option String)
    (j : Nat) (g : Generation) (gs : List Generation)
    (hsub : submitLoop groups none (some "N/A") none = .initiated jid mu)
    (hj1 : 1 ≤ j) (hj2 : j ≤ maxAttempts)
    (hprev : ∀ k, k < j → 0 < k → isPending (polls k) = true)
    (hgen : (polls j).generations = some (g :: gs))
    (himg : g.img ≠ "") :
    pollLoop polls maxAttempts none mu 0 = .done g.img (jsOr g.model mu) j ∧
    generateImage groups polls = .ok g.img (jsOr g.model mu) := by
  have hl := pollLoop_first_done polls j g gs maxAttempts 0 mu (by omega)
    (by omega) hprev hgen himg
  exact ⟨hl, by simp [generateImage, hsub, hl, pollResultToHttp]⟩

/-- Witness for C2 (amended): the spec scenario resolves after the
third poll to `{imageUrl:"https://x/1.png", model:"stable_diffusion"}`. -/
theorem c2_first_nonempty_generation_done_witness :
    pollLoop scenarioPolls maxAttempts none (some "stable_diffusion") 0
      = .done "https://x/1.png" (some "stable_diffusion") 3 ∧
    generateImage [sdGroup] scenarioPolls
      = .ok "https://x/1.png" (some "stable_diffusion") :=
  c2_first_nonempty_generation_done [sdGroup] scenarioPolls "job-1"
    (some "stable_diffusion") 3
    { img := "https://x/1.png", model := some "stable_diffusion", seed := none }
    [] (by decide) (by decide) (by decide) (by decide) rfl (by decide)

/-- C3 counterexample: a status response with `faulted = true` but a
non-empty generations array whose first `img` is truthy resolves as
Done with HTTP 200, not Faulted with HTTP 500 — so the claim, which
demands Faulted for every response carrying the fault flag, fails on
the code. -/
theorem c3_fault_flag_with_generations_counterexample :
    (faultWithImagePolls 1).faulted = true ∧
    pollLoop faultWithImagePolls maxAttempts none (some "N/A") 0
      = .done "https://x/ok.png" (some "N/A") 1 ∧
    (generateImage [sdGroup] faultWithImagePolls).httpStatus = 200 :=
  ⟨rfl, by decide, by decide⟩

/-- C3 (amended): if the first non-pending status response has an empty
or absent generations array and a set fault flag, the polling loop
transitions to Faulted at that attempt — no further status query is
issued — and the handler answers HTTP 500 with an error message
embedding the provider's `fault_message`.  In particular a first-poll
`{faulted:true, fault_message:"NSFW filter triggered"}` yields HTTP 500
whose message contains "NSFW filter triggered". -/
theorem c3_fault_without_generations_500
    (groups : List (List String × SubmitOutcome))
    (polls : Nat → StatusResponse) (jid : String) (mu : Option String)
    (j : Nat) (fm : String)
    (hsub : submitLoop groups none (some "N/A") none = .initiated jid mu)
    (hj1 : 1 ≤ j) (hj2 : j ≤ maxAttempts)
    (hprev : ∀ k, k < j → 0 < k → isPending (polls k) = true)
    (hgen : (polls j).generations.getD [] = [])
    (hfault : (polls j).faulted = true)
    (hmsg : (polls j).fault_message = some fm) :
    pollLoop polls maxAttempts none mu 0 = .faulted (some fm) j ∧
    generateImage groups polls
      = .hordeFault ("Image generation failed on Stable Horde: " ++ fm) ∧
    (generateImage groups polls).httpStatus = 500 := by
  have hl := pollLoop_first_faulted polls j maxAttempts 0 mu (by omega)
    (by omega) hprev hgen hfault
  rw [hmsg] at hl
  refine ⟨hl, ?_, ?_⟩ <;>
    simp [generateImage, hsub, hl, pollResultToHttp, faultedHttpError,
      GenImageResult.httpStatus]

/-- Witness for C3 (amended): the NSFW first-poll fault scenario yields
HTTP 500 with the fault message embedded. -/
theorem c3_fault_without_generations_500_witness :
    pollLoop nsfwPolls maxAttempts none (some "stable_diffusion") 0
      = .faulted (some "NSFW filter triggered") 1 ∧
    generateImage [sdGroup] nsfwPolls
      = .hordeFault ("Image generation failed on Stable Horde: "
          ++ "NSFW filter triggered") ∧
    (generateImage [sdGroup] nsfwPolls).httpStatus = 500 :=
  c3_fault_without_generations_500 [sdGroup] nsfwPolls "job-1"
    (some "stable_diffusion") 1 "NSFW filter triggered"
    (by decide) (by decide) (by decide) (by decide) rfl rfl rfl

/-- C4: a submission response carrying a NoAvailableWorker warning
makes the fallback loop discard that group's job id (reset to null) and
advance to the next candidate group without surfacing an error: the
step on such a group is exactly the loop on the remaining groups with a
null job id; and when the next group succeeds, the job proceeds with
that group's job id. -/
theorem c4_no_worker_warning_falls_through
    (gA gB : List String) (rA rB : InitiateResponse)
    (rest tail : List (List String × SubmitOutcome))
    (jobId modelUsed warning : Option String) (idB : String)
    (hA : hasNoWorkerWarning rA = true)
    (hB : hasNoWorkerWarning rB = false)
    (hid : rB.id = some idB) (hne : idB ≠ "") :
    submitLoop ((gA, .success rA) :: (gB, .success rB) :: rest)
        jobId modelUsed warning
      = .initiated idB (jsOr rB.model gB.head?) ∧
    submitLoop ((gA, .success rA) :: tail) jobId modelUsed warning
      = submitLoop tail none (jsOr rA.model gA.head?)
          (some (jsOrD rA.message noWorkerWarningMessage)) := by
  have htr : strTruthy (some idB) = true := by simp [strTruthy, hne]
  constructor
  · simp [submitLoop, hA, hB, hid, htr]
  · simp [submitLoop, hA]

/-- Witness for C4: group A gets the NoAvailableWorker warning, group B
succeeds with job id `job-B`; the job proceeds with `job-B` and group
A's attempt reduces to the loop on the remaining groups. -/
theorem c4_no_worker_warning_falls_through_witness :
    submitLoop [(["Realistic Vision"], .success noWorkerSubmit),
                (["AbsoluteReality"], .success okSubmitB)]
        none (some "N/A") none
      = .initiated "job-B" (some "AbsoluteReality") ∧
    submitLoop [(["Realistic Vision"], .success noWorkerSubmit),
                (["AbsoluteReality"], .success okSubmitB)]
        none (some "N/A") none
      = submitLoop [(["AbsoluteReality"], .success okSubmitB)]
          none (some "Realistic Vision") (some noWorkerWarningMessage) :=
  c4_no_worker_warning_falls_through ["Realistic Vision"] ["AbsoluteReality"]
    noWorkerSubmit okSubmitB [] [(["AbsoluteReality"], .success okSubmitB)]
    none (some "N/A") none "job-B" rfl rfl rfl (by decide)

/-- C5: a submission error whose HTTP status is 400 (the hard
InvalidRequest case) aborts the fallback loop immediately — whatever
groups follow are never tried, whatever the loop state — and the
handler answers HTTP 400 whose body embeds the upstream-reported
message verbatim (with the fixed "Stable Horde Bad Request: " prefix
of `server.js`); the status responses are never consulted. -/
theorem c5_http400_aborts_submission
    (g : List String) (msg : Option String)
    (rest : List (List String × SubmitOutcome))
    (jobId modelUsed warning : Option String)
    (polls : Nat → StatusResponse) :
    submitLoop ((g, .failure (some 400) msg) :: rest) jobId modelUsed warning
      = .badRequest ("Stable Horde Bad Request: " ++
          jsOrD msg "Check prompt or parameters.") ∧
    generateImage ((g, .failure (some 400) msg) :: rest) polls
      = .badRequest ("Stable Horde Bad Request: " ++
          jsOrD msg "Check prompt or parameters.") ∧
    (generateImage ((g, .failure (some 400) msg) :: rest) polls).httpStatus
      = 400 := by
  refine ⟨?_, ?_, ?_⟩ <;>
    simp [submitLoop, generateImage, GenImageResult.httpStatus]

/-- C6: when the model-group list is empty, or every group's submission
outcome is non-initiating (NoAvailableWorker warning, falsy job id, or
a thrown non-400 error), the handler answers ServiceUnavailable as
HTTP 503; the handler is total and the polling phase is never reached —
its response does not depend on the status responses at all. -/
theorem c6_exhausted_groups_503
    (groups : List (List String × SubmitOutcome))
    (polls polls2 : Nat → StatusResponse)
    (h : ∀ p ∈ groups, nonInitiating p.2 = true) :
    (generateImage groups polls).isServiceUnavailable = true ∧
    (generateImage groups polls).httpStatus = 503 ∧
    generateImage groups polls2 = generateImage groups polls := by
  obtain ⟨e, he⟩ := submitLoop_exhausted groups h none (some "N/A") none rfl
  refine ⟨?_, ?_, ?_⟩ <;>
    simp [generateImage, he, GenImageResult.httpStatus,
      GenImageResult.isServiceUnavailable]

/-- Witness for C6: a warning group followed by a rate-limited group
exhausts the list: HTTP 503, and the response is the same under two
entirely different poll streams (no polling happens). -/
theorem c6_exhausted_groups_503_witness :
    (generateImage exhaustedGroups
        (fun _ => pendingStatus)).isServiceUnavailable = true ∧
    (generateImage exhaustedGroups (fun _ => pendingStatus)).httpStatus
      = 503 ∧
    generateImage exhaustedGroups (fun _ => scenarioDoneStatus)
      = generateImage exhaustedGroups (fun _ => pendingStatus) :=
  c6_exhausted_groups_503 exhaustedGroups (fun _ => pendingStatus)
    (fun _ => scenarioDoneStatus) (by decide)

/-- C7: once submission has produced a job handle, the request reaches
exactly one terminal outcome: the polling loop terminates with its
attempt counter within the budget, and the handler's single response
has status 200 (Done), 500 (Faulted) or 504 (TimedOut). -/
theorem c7_single_terminal_outcome_within_budget
    (groups : List (List String × SubmitOutcome))
    (polls : Nat → StatusResponse) (jid : String) (mu : Option String)
    (hsub : submitLoop groups none (some "N/A") none = .initiated jid mu) :
    (pollLoop polls maxAttempts none mu 0).attempts ≤ maxAttempts ∧
    (generateImage groups polls).httpStatus ∈ ([200, 500, 504] : List Nat) := by
  constructor
  · have := pollLoop_attempts_le polls maxAttempts none mu 0
    omega
  · simp only [generateImage, hsub]
    cases pollLoop polls maxAttempts none mu 0 <;>
      simp [pollResultToHttp, GenImageResult.httpStatus]

/-- Witness for C7: a submitted job polled against a permanent fault
stays within the budget and answers one of the three terminal
statuses. -/
theorem c7_single_terminal_outcome_within_budget_witness :
    (pollLoop nsfwPolls maxAttempts none (some "stable_diffusion") 0).attempts
      ≤ maxAttempts ∧
    (generateImage [sdGroup] nsfwPolls).httpStatus
      ∈ ([200, 500, 504] : List Nat) :=
  c7_single_terminal_outcome_within_budget [sdGroup] nsfwPolls "job-1"
    (some "stable_diffusion") (by decide)

/-- C8 counterexample: `part_008`'s `getImageResult`, cited by the
claim, reports `completed` with an absent imageUrl on the response
`{done:true, generations:[]}`, and its `failed` result carries no
reason string at all (the fault message "boom" is dropped) — so the
payloads of the two terminal statuses can be empty or absent. -/
theorem c8_completed_without_image_counterexample :
    (getImageResult doneEmptyStatus).status = "completed" ∧
    (getImageResult doneEmptyStatus).imageUrl = none ∧
    getImageResult faultedNoGenStatus =
      { status := "failed", imageUrl := none, seed := none, details := none,
        waitTime := none, queuePosition := none } := by
  decide

/-- C8 (amended): in the internal polling loop of `server.js` the claim
holds: a Done outcome always carries a non-empty imageUrl (an empty
`img` is falsy and never exits the loop), and the Faulted HTTP 500 body
is a non-empty string (a fixed prefix followed by the provider's fault
message).  The `part_008` client-polls variant does not satisfy the
claim (see the counterexample). -/
theorem c8_terminal_payloads_nonempty (polls : Nat → StatusResponse)
    (mu : Option String) :
    (∀ url m a, pollLoop polls maxAttempts none mu 0 = .done url m a →
      url ≠ "") ∧
    (∀ msg a, pollResultToHttp (.faulted msg a)
        = .hordeFault (faultedHttpError msg) ∧ faultedHttpError msg ≠ "") := by
  constructor
  · intro url m a h
    exact pollLoop_done_nonempty polls maxAttempts none mu 0 url m a h
  · intro msg a
    refine ⟨rfl, ?_⟩
    intro h
    have hl := congrArg String.length h
    unfold faultedHttpError at hl
    rw [String.length_append] at hl
    have h1 : "Image generation failed on Stable Horde: ".length = 41 := rfl
    have h0 : "".length = 0 := rfl
    omega

/-- Witness for C8 (amended): the Done payload of the scenario polls is
the non-empty URL, and a concrete Faulted outcome maps to a non-empty
500 body. -/
theorem c8_terminal_payloads_nonempty_witness :
    ("https://x/1.png" : String) ≠ "" ∧
    (pollResultToHttp (.faulted (some "NSFW filter triggered") 1)
        = .hordeFault (faultedHttpError (some "NSFW filter triggered")) ∧
      faultedHttpError (some "NSFW filter triggered") ≠ "") :=
  ⟨(c8_terminal_payloads_nonempty scenarioPolls (some "stable_diffusion")).1
      "https://x/1.png" (some "stable_diffusion") 3 (by decide),
    (c8_terminal_payloads_nonempty scenarioPolls (some "stable_diffusion")).2
      (some "NSFW filter triggered") 1⟩

/-- C9: the status checks are idempotent reads.  Two calls of
`part_008`'s `GET /image-status/:jobId` that observe the job's stable
Done status upstream (same `done` flag and generations array, possibly
different transient wait metadata) return identical responses — in
particular the same imageUrl — and both report `completed`; the same
holds for `part_003`'s `GET /image-status/:imageId`.  Neither endpoint
submits anything, so no duplicate job is started. -/
theorem c9_status_check_idempotent (s1 s2 : StatusResponse)
    (h1 : s1.done = true) (h2 : s2.done = true)
    (hg : s1.generations = s2.generations) :
    imageStatusEndpoint s1 = imageStatusEndpoint s2 ∧
    (imageStatusEndpoint s1).status = "completed" ∧
    (imageStatusEndpoint s1).imageUrl = (imageStatusEndpoint s2).imageUrl ∧
    imageStatusSimple s1 = imageStatusSimple s2 := by
  have he : imageStatusEndpoint s1 = imageStatusEndpoint s2 := by
    simp [imageStatusEndpoint, getImageResult, firstGen, h1, h2, hg]
  refine ⟨he, ?_, by rw [he], by simp [imageStatusSimple, h1, h2, hg]⟩
  simp [imageStatusEndpoint, getImageResult, h1]

/-- Witness for C9: two checks of the same finished job, differing only
in transient wait metadata, return the same completed response. -/
theorem c9_status_check_idempotent_witness :
    imageStatusEndpoint doneStatusA = imageStatusEndpoint doneStatusB ∧
    (imageStatusEndpoint doneStatusA).status = "completed" ∧
    (imageStatusEndpoint doneStatusA).imageUrl
      = (imageStatusEndpoint doneStatusB).imageUrl ∧
    imageStatusSimple doneStatusA = imageStatusSimple doneStatusB :=
  c9_status_check_idempotent doneStatusA doneStatusB rfl rfl rfl

/-- C10 counterexample: poll 1 has a non-empty generations array and
`faulted = true`, but the job is not resolved as Done with HTTP 200:
the empty first `img` keeps the loop polling to the budget and the
handler answers HTTP 504 — refuting the claim's statement that every
response with a non-empty generations array is resolved as Done. -/
theorem c10_empty_img_with_fault_counterexample :
    (emptyImgFaultPolls 1).faulted = true ∧
    (emptyImgFaultPolls 1).generations =
      some [{ img := "", model := none, seed := none }] ∧
    pollLoop emptyImgFaultPolls maxAttempts none (some "N/A") 0
      = .timedOut maxAttempts ∧
    (generateImage [sdGroup] emptyImgFaultPolls).httpStatus = 504 :=
  ⟨rfl, rfl, by decide, by decide⟩

/-- C10 (amended): the generations branch takes precedence over the
fault branch.  A first-poll response whose generations array is
non-empty and whose first `img` is non-empty is resolved as Done even
when the same response sets `faulted = true` — the fault flag of such a
response is never examined (when the `img` is empty the loop simply
continues, still without a 500; see the counterexample).  The
client-polls variant of `part_008` checks `done` before `faulted`: a
response with both flags set reports `completed`. -/
theorem c10_done_precedence_over_fault (polls : Nat → StatusResponse)
    (mu : Option String) (g : Generation) (gs : List Generation)
    (s : StatusResponse)
    (hgen : (polls 1).generations = some (g :: gs))
    (himg : g.img ≠ "") (hf : (polls 1).faulted = true)
    (hs : s.done = true) (hsf : s.faulted = true) :
    pollLoop polls maxAttempts none mu 0 = .done g.img (jsOr g.model mu) 1 ∧
    (getImageResult s).status = "completed" := by
  constructor
  · exact pollLoop_first_done polls 1 g gs maxAttempts 0 mu (by decide)
      (by decide) (fun k hk1 hk2 => by omega) hgen himg
  · simp [getImageResult, hs]

/-- Witness for C10 (amended): a faulted-and-generated first poll
resolves Done at attempt 1, and a done-and-faulted status reports
completed in the client-polls variant. -/
theorem c10_done_precedence_over_fault_witness :
    pollLoop faultWithImagePolls maxAttempts none (some "N/A") 0
      = .done "https://x/ok.png" (some "N/A") 1 ∧
    (getImageResult doneFaultedStatus).status = "completed" :=
  c10_done_precedence_over_fault faultWithImagePolls (some "N/A")
    { img := "https://x/ok.png", model := none, seed := none } []
    doneFaultedStatus rfl (by decide) rfl rfl rfl

end FormStatic
